import Mathlib

/- Shallow embedding of the pyRevit bootstrap layer:
   pyrevitlib/pyrevit/__init__.py and pyrevitlib/pyrevit/coreutils/logger.py.
   Pure fragments become Lean functions; the mutable module state of the
   logging module (the FILE_LOGGING_STATUS flag, the logging-module intern
   table of loggers, and the module-level `loggers` dict) becomes explicit
   state passing on a ModuleState record. -/

-- Python logging module numeric level constants, as used by logger.py.
def logging_NOTSET : Nat := 0

def logging_DEBUG : Nat := 10

def logging_INFO : Nat := 20

def logging_WARNING : Nat := 30

def logging_CRITICAL : Nat := 50

-- ---------------------------------------------------------------------------
-- pyrevitlib/pyrevit/__init__.py
-- ---------------------------------------------------------------------------

def PYREVIT_ADDON_NAME : String := "pyRevit"

/- The string templates of __init__.py lines 250-253; Python
   str.format with templates joining the parts with single underscores. -/
def fmt2 (a b : String) : String := a ++ "_" ++ b

def fmt3 (a b c : String) : String := a ++ "_" ++ b ++ "_" ++ c

def fmt4 (a b c d : String) : String := a ++ "_" ++ b ++ "_" ++ c ++ "_" ++ d

/- PYREVIT_FILE_PREFIX_UNIVERSAL of __init__.py line 250 (non doc-mode
   branch), as a function of the resolved host username. -/
def PYREVIT_FILE_PFX_UNIVERSAL (username : String) : String :=
  fmt2 PYREVIT_ADDON_NAME username

/- PYREVIT_FILE_PREFIX of __init__.py line 251. -/
def PYREVIT_FILE_PFX (version username : String) : String :=
  fmt3 PYREVIT_ADDON_NAME version username

/- PYREVIT_FILE_PREFIX_STAMPED of __init__.py lines 252-253; the process id
   is an integer that str.format renders in decimal. -/
def PYREVIT_FILE_PFX_STAMPED (version username : String) (proc_id : Nat) : String :=
  fmt4 PYREVIT_ADDON_NAME version username (toString proc_id)

def TRACEBACK_TITLE : String := "Traceback:"

/- PyRevitException.__str__ of __init__.py lines 31-41.  The fallible
   pieces of the try block are passed in explicitly: tb_report is the
   result of traceback.format_tb(...)[0] (none when that raised for any
   reason), each element of args is the rendering of that argument (none
   when rendering it raised), and base_str is Exception.__str__(self). -/
def pyRevitExceptionStr (args : List (Option String)) (tb_report : Option String)
    (base_str : String) : String :=
  match tb_report with
  | none => base_str
  | some tb =>
    match args with
    | [] => TRACEBACK_TITLE ++ "\n" ++ tb
    | none :: _ => base_str
    | some message :: _ => message ++ "\n\n" ++ TRACEBACK_TITLE ++ "\n" ++ tb

/- The exception classes that the directory-creation loop of __init__.py
   lines 237-243 can observe: the raw OS-level errors that os.mkdir raises
   and are caught there, and the module exceptions. -/
inductive OSErr where
  | osError (msg : String)
  | ioException (msg : String)
  deriving DecidableEq

/- Python str(err) on a caught OS-level error: its message. -/
def OSErr.str : OSErr → String
  | OSErr.osError msg => msg
  | OSErr.ioException msg => msg

inductive PyExn where
  | pyRevitException (msg : String)
  | rawError (e : OSErr)
  deriving DecidableEq

/- One iteration of the directory-creation loop of __init__.py lines
   237-243, for directory pyrvt_app_dir: isdir is op.isdir(pyrvt_app_dir),
   mkdir_result the outcome of os.mkdir. -/
def ensure_pyrvt_app_dir (pyrvt_app_dir : String) (isdir : Bool)
    (mkdir_result : Except OSErr Unit) : Except PyExn Unit :=
  if isdir then Except.ok ()
  else
    match mkdir_result with
    | Except.ok _ => Except.ok ()
    | Except.error err =>
        Except.error (PyExn.pyRevitException
          ("Can not access pyRevit folder at: " ++ pyrvt_app_dir ++ " | " ++ err.str))

/- _HostApplication.username of __init__.py lines 73-79, over the
   character list of the host-reported username.  Python str.split with a
   one-character separator, over character lists. -/
def pySplit (sep : Char) : List Char → List (List Char)
  | [] => [[]]
  | c :: rest =>
    let fields := pySplit sep rest
    if c = sep then [] :: fields
    else
      match fields with
      | f :: fs => (c :: f) :: fs
      | [] => [[c]]

/- Python str.replace(old, new) over character lists (new as a list). -/
def pyReplace (old : Char) (new : List Char) : List Char → List Char
  | [] => []
  | c :: rest =>
    if c = old then new ++ pyReplace old new rest
    else c :: pyReplace old new rest

def host_username (uname : List Char) : List Char :=
  pyReplace '.' [] ((pySplit '@' uname).headD [])

-- ---------------------------------------------------------------------------
-- pyrevitlib/pyrevit/coreutils/logger.py
-- ---------------------------------------------------------------------------

/- RUNTIME_LOGGING_LEVEL selection of logger.py lines 14 and 34-47 (non
   doc-mode branch), as a function of the truthiness of the two session
   environment variables and of EXEC_PARAMS.forced_debug_mode. -/
def runtime_logging_level (verbose_isc debug_isc forced_debug_mode : Bool) : Nat :=
  let lvl := logging_WARNING
  let lvl := if verbose_isc then logging_INFO else lvl
  let lvl := if debug_isc then logging_DEBUG else lvl
  if forced_debug_mode then logging_DEBUG else lvl

/- The session-scoped environment variables VERBOSE_ISC_NAME and
   DEBUG_ISC_NAME as seen by LoggerWrapper._reset_logger_env_vars. -/
structure SessionEnv where
  verboseVar : Bool
  debugVar : Bool
  deriving DecidableEq

/- The state touched by the LoggerWrapper level setters: the session
   environment variables and the levels of the handlers of the logger. -/
structure WrapState where
  env : SessionEnv
  handlerLevels : List Nat
  deriving DecidableEq

/- LoggerWrapper._reset_logger_env_vars of logger.py lines 92-94. -/
def reset_logger_env_vars (verbose debug : Bool) (st : WrapState) : WrapState :=
  { st with env := ⟨verbose, debug⟩ }

/- self.handlers[0].setLevel(level): Python indexing raises on an empty
   handler list, modelled as none. -/
def setLevelFirstHandler (level : Nat) (st : WrapState) : Option WrapState :=
  match st.handlerLevels with
  | [] => none
  | _ :: rest => some { st with handlerLevels := level :: rest }

/- LoggerWrapper.set_verbose_mode of logger.py lines 99-101. -/
def set_verbose_mode (st : WrapState) : Option WrapState :=
  setLevelFirstHandler logging_INFO (reset_logger_env_vars true false st)

/- LoggerWrapper.set_debug_mode of logger.py lines 103-105. -/
def set_debug_mode (st : WrapState) : Option WrapState :=
  setLevelFirstHandler logging_DEBUG (reset_logger_env_vars false true st)

/- LoggerWrapper.reset_level of logger.py lines 107-109; the module
   constant RUNTIME_LOGGING_LEVEL is passed in. -/
def reset_level (runtime_level : Nat) (st : WrapState) : Option WrapState :=
  setLevelFirstHandler runtime_level (reset_logger_env_vars false false st)

/- LoggerWrapper.getEffectiveLevel of logger.py lines 75-90.  The chain
   self, self.parent, ... is the input list; each element carries the
   handler levels and the logger level of one logger in the chain. -/
def getEffectiveLevel : List (List Nat × Nat) → Nat
  | [] => logging_NOTSET
  | (handlers, level) :: parents =>
    if handlers.length > 0 then
      handlers.foldl (fun eff_level h => if h < eff_level then h else eff_level) logging_CRITICAL
    else if level ≠ 0 then level
    else getEffectiveLevel parents

/-- Stated from the claim C9 wording: the minimum handler level among a
nonempty list of handler levels. -/
def minimumHandlerLevel : List Nat → Nat
  | [] => 0
  | h :: t => t.foldl min h

/-- Stated from the amended claim C9 wording: the effective level is the
minimum of logging.CRITICAL and the handler levels of the nearest logger in
the chain with handlers; with no handlers anywhere, the first non-zero
logger level, else NOTSET. -/
def effectiveLevelAmendedSpec : List (List Nat × Nat) → Nat
  | [] => logging_NOTSET
  | (handlers, level) :: parents =>
    if handlers.length > 0 then min logging_CRITICAL (minimumHandlerLevel handlers)
    else if level ≠ 0 then level
    else effectiveLevelAmendedSpec parents

-- Module-level mutable state of logger.py: get_logger / set_file_logging.

/- The two module-level handler objects of logger.py lines 115-126. -/
inductive Handler where
  | stdout
  | file
  deriving DecidableEq

/- The per-logger state that get_logger touches. -/
structure PyLogger where
  handlers : List Handler
  propagate : Bool
  deriving DecidableEq

/- The module state: FILE_LOGGING_STATUS (line 31), the logging-module
   intern table behind logging.getLogger (manager), and the module-level
   `loggers` dict (registry); registry values are logger identities,
   i.e. the names they are interned under. -/
structure ModuleState where
  fileLoggingStatus : Bool
  manager : List (String × PyLogger)
  registry : List (String × String)
  deriving DecidableEq

/- A fresh logging.Logger: no handlers, propagate True. -/
def freshLogger : PyLogger := ⟨[], true⟩

/- Python dict get. -/
def lookupAssoc {α : Type} (k : String) : List (String × α) → Option α
  | [] => none
  | (k1, v1) :: rest => if k1 = k then some v1 else lookupAssoc k rest

/- Python dict item assignment / one-key dict.update. -/
def updAssoc {α : Type} (k : String) (v : α) : List (String × α) → List (String × α)
  | [] => [(k, v)]
  | (k1, v1) :: rest =>
    if k1 = k then (k, v) :: rest else (k1, v1) :: updAssoc k v rest

/- logging.getLogger(name): return the interned logger, creating it fresh
   when absent. -/
def getLoggerRaw (st : ModuleState) (name : String) : ModuleState :=
  match lookupAssoc name st.manager with
  | some _ => st
  | none => { st with manager := updAssoc name freshLogger st.manager }

/- Mutating the interned logger of the given name in place. -/
def modifyLogger (name : String) (f : PyLogger → PyLogger) (st : ModuleState) : ModuleState :=
  { st with manager :=
      st.manager.map (fun p => if p.1 = name then (p.1, f p.2) else p) }

/- The manager list produced by modifyLogger, for rewriting. -/
def modifyAssoc (name : String) (f : PyLogger → PyLogger) :
    List (String × PyLogger) → List (String × PyLogger)
  | [] => []
  | (k1, v1) :: rest =>
    (if k1 = name then (k1, f v1) else (k1, v1)) :: modifyAssoc name f rest

/- logging.Logger.addHandler: appends unless already present. -/
def addHandler (h : Handler) (lg : PyLogger) : PyLogger :=
  if h ∈ lg.handlers then lg else { lg with handlers := lg.handlers ++ [h] }

def setPropagate (b : Bool) (lg : PyLogger) : PyLogger := { lg with propagate := b }

/- get_logger of logger.py lines 135-146.  Returns the new state and the
   identity (intern name) of the returned logger.  Note line 145:
   loggers.update(dict(logger_name=logger)) builds the one-entry dict with
   the literal key string "logger_name", not the value of the variable. -/
def get_logger (st : ModuleState) (logger_name : String) : ModuleState × String :=
  match lookupAssoc logger_name st.registry with
  | some cached => (st, cached)
  | none =>
    let st1 := getLoggerRaw st logger_name
    let st2 := modifyLogger logger_name (addHandler Handler.stdout) st1
    let st3 := modifyLogger logger_name (setPropagate false) st2
    let st4 := if st3.fileLoggingStatus then
                 modifyLogger logger_name (addHandler Handler.file) st3
               else st3
    { st4 with registry := updAssoc "logger_name" logger_name st4.registry }
      |> fun st5 => (st5, logger_name)

/- set_file_logging of logger.py lines 149-151. -/
def set_file_logging (status : Bool) (st : ModuleState) : ModuleState :=
  { st with fileLoggingStatus := status }

/- The module state right after import: FILE_LOGGING_STATUS = False, no
   loggers interned, empty `loggers` dict. -/
def initModuleState : ModuleState := ⟨false, [], []⟩

/- The logger contents produced by the creation path of get_logger, as a
   function of the FILE_LOGGING_STATUS read at line 142 and of the prior
   interned logger (fresh when the name was not interned yet). -/
def postCreateLogger (status : Bool) (base : PyLogger) : PyLogger :=
  let lg1 := setPropagate false (addHandler Handler.stdout base)
  if status then addHandler Handler.file lg1 else lg1

-- ---------------------------------------------------------------------------
-- Helper lemmas
-- ---------------------------------------------------------------------------

theorem lookupAssoc_updAssoc_self {α : Type} (k : String) (v : α)
    (l : List (String × α)) : lookupAssoc k (updAssoc k v l) = some v := by
  induction l with
  | nil => simp [updAssoc, lookupAssoc]
  | cons p rest ih =>
    obtain ⟨k1, v1⟩ := p
    by_cases h : k1 = k
    · simp [updAssoc, h, lookupAssoc]
    · simp [updAssoc, h, lookupAssoc, ih]

theorem lookupAssoc_updAssoc_ne {α : Type} (k k' : String) (h : k' ≠ k) (v : α)
    (l : List (String × α)) : lookupAssoc k' (updAssoc k v l) = lookupAssoc k' l := by
  induction l with
  | nil => simp [updAssoc, lookupAssoc, Ne.symm h]
  | cons p rest ih =>
    obtain ⟨k1, v1⟩ := p
    by_cases h1 : k1 = k
    · subst h1
      simp [updAssoc, lookupAssoc, Ne.symm h]
    · simp [updAssoc, h1, lookupAssoc, ih]

theorem map_modify_eq_modifyAssoc (n : String) (f : PyLogger → PyLogger)
    (l : List (String × PyLogger)) :
    l.map (fun p => if p.1 = n then (p.1, f p.2) else p) = modifyAssoc n f l := by
  induction l with
  | nil => rfl
  | cons p rest ih =>
    obtain ⟨k1, v1⟩ := p
    by_cases h : k1 = n
    · subst h
      simp [modifyAssoc, ih]
    · simp [modifyAssoc, h, ih]

theorem lookupAssoc_modifyAssoc (n : String) (f : PyLogger → PyLogger)
    (l : List (String × PyLogger)) :
    lookupAssoc n (modifyAssoc n f l) = (lookupAssoc n l).map f := by
  induction l with
  | nil => rfl
  | cons p rest ih =>
    obtain ⟨k1, v1⟩ := p
    by_cases h : k1 = n
    · subst h
      simp only [modifyAssoc, if_true, eq_self_iff_true]
      simp [lookupAssoc, ih]
    · simp only [modifyAssoc]
      rw [if_neg h]
      simp [lookupAssoc, h, ih]

theorem get_logger_miss_lookup (st : ModuleState) (n : String)
    (hreg : lookupAssoc n st.registry = none) :
    lookupAssoc n ((get_logger st n).1).manager =
      some (postCreateLogger st.fileLoggingStatus
        ((lookupAssoc n st.manager).getD freshLogger)) := by
  rcases hm : lookupAssoc n st.manager with _ | lg <;>
    by_cases hb : st.fileLoggingStatus <;>
      simp [get_logger, hreg, getLoggerRaw, hm, modifyLogger, postCreateLogger, hb,
            map_modify_eq_modifyAssoc, lookupAssoc_modifyAssoc,
            lookupAssoc_updAssoc_self, -List.map_map]

-- ---------------------------------------------------------------------------
-- Claim theorems
-- ---------------------------------------------------------------------------

/-- Claim C3: with host identity (addon name pyRevit, version v, username u,
process id p) and not in doc mode, the derived file-name prefixes equal the
expected concatenations. -/
theorem pyrevit_file_prefixes_concat (v u : String) (p : Nat) :
    PYREVIT_FILE_PFX_UNIVERSAL u = "pyRevit_" ++ u ∧
    PYREVIT_FILE_PFX v u = "pyRevit_" ++ v ++ "_" ++ u ∧
    PYREVIT_FILE_PFX_STAMPED v u p = "pyRevit_" ++ v ++ "_" ++ u ++ "_" ++ toString p := by
  refine ⟨rfl, ?_, ?_⟩ <;>
    simp [PYREVIT_FILE_PFX, PYREVIT_FILE_PFX_STAMPED, fmt3, fmt4,
          PYREVIT_ADDON_NAME, String.append_assoc]

/-- Claim C5: rendering a PyRevitException never raises; whatever the state,
when formatting the traceback report fails (tb_report = none), or rendering
the first argument fails (head of args none), the result is the base
Exception rendering; otherwise it is the formatted report. -/
theorem pyrevit_exception_str_fallback (args rest : List (Option String))
    (m tb base : String) :
    pyRevitExceptionStr args none base = base ∧
    pyRevitExceptionStr (none :: rest) (some tb) base = base ∧
    pyRevitExceptionStr [] (some tb) base = TRACEBACK_TITLE ++ "\n" ++ tb ∧
    pyRevitExceptionStr (some m :: rest) (some tb) base =
      m ++ "\n\n" ++ TRACEBACK_TITLE ++ "\n" ++ tb :=
  ⟨rfl, rfl, rfl, rfl⟩

/-- Claim C6: outside doc mode the runtime console logging level is WARNING
by default, INFO when the verbose session variable is set, DEBUG when the
debug session variable is set or forced debug mode is injected; debug wins
over verbose. -/
theorem runtime_logging_level_selection (verbose_isc debug_isc forced_debug_mode : Bool) :
    runtime_logging_level verbose_isc debug_isc forced_debug_mode =
      (if debug_isc || forced_debug_mode then logging_DEBUG
       else if verbose_isc then logging_INFO
       else logging_WARNING) := by
  cases verbose_isc <;> cases debug_isc <;> cases forced_debug_mode <;> rfl

/-- Claim C4: when an application-data directory does not exist and creating
it fails with an OS or IO error, the module raises PyRevitException whose
message carries the directory path with the OS error appended, and never
propagates the raw OS error. -/
theorem mkdir_failure_wrapped (pyrvt_app_dir : String) (isdir : Bool) (err : OSErr)
    (hdir : isdir = false) :
    ensure_pyrvt_app_dir pyrvt_app_dir isdir (Except.error err) =
      Except.error (PyExn.pyRevitException
        ("Can not access pyRevit folder at: " ++ pyrvt_app_dir ++ " | " ++ err.str)) ∧
    ∀ e : OSErr, ensure_pyrvt_app_dir pyrvt_app_dir isdir (Except.error err) ≠
      Except.error (PyExn.rawError e) := by
  subst hdir
  refine ⟨rfl, ?_⟩
  intro e
  simp [ensure_pyrvt_app_dir]

/-- Witness for C4 at a concrete directory and error. -/
theorem mkdir_failure_wrapped_witness :
    ensure_pyrvt_app_dir "C:/Users/jdoe/AppData/Roaming/pyRevit" false
        (Except.error (OSErr.osError "Access is denied")) =
      Except.error (PyExn.pyRevitException
        "Can not access pyRevit folder at: C:/Users/jdoe/AppData/Roaming/pyRevit | Access is denied") := by
  have h := mkdir_failure_wrapped "C:/Users/jdoe/AppData/Roaming/pyRevit" false
    (OSErr.osError "Access is denied") rfl
  exact h.1

/-- Claim C7: set_debug_mode sets the debug session variable true, the
verbose one false and the first handler level to DEBUG; set_verbose_mode
sets verbose true, debug false and the level to INFO; reset_level clears
both variables and restores the runtime logging level. -/
theorem logger_mode_setters (st : WrapState) (runtime_level first : Nat)
    (rest : List Nat) (h : st.handlerLevels = first :: rest) :
    set_debug_mode st = some ⟨⟨false, true⟩, logging_DEBUG :: rest⟩ ∧
    set_verbose_mode st = some ⟨⟨true, false⟩, logging_INFO :: rest⟩ ∧
    reset_level runtime_level st = some ⟨⟨false, false⟩, runtime_level :: rest⟩ := by
  obtain ⟨env, levels⟩ := st
  simp only at h
  subst h
  exact ⟨rfl, rfl, rfl⟩

/-- Witness for C7 on a logger with one handler at WARNING level. -/
theorem logger_mode_setters_witness :
    set_debug_mode ⟨⟨false, false⟩, [logging_WARNING]⟩ =
      some ⟨⟨false, true⟩, [logging_DEBUG]⟩ ∧
    set_verbose_mode ⟨⟨false, false⟩, [logging_WARNING]⟩ =
      some ⟨⟨true, false⟩, [logging_INFO]⟩ ∧
    reset_level logging_WARNING ⟨⟨false, false⟩, [logging_WARNING]⟩ =
      some ⟨⟨false, false⟩, [logging_WARNING]⟩ :=
  logger_mode_setters ⟨⟨false, false⟩, [logging_WARNING]⟩ logging_WARNING
    logging_WARNING [] rfl

theorem pySplit_ne_nil (sep : Char) (l : List Char) : pySplit sep l ≠ [] := by
  induction l with
  | nil => simp [pySplit]
  | cons c rest ih =>
    rcases hf : pySplit sep rest with _ | ⟨f, fs⟩
    · exact absurd hf ih
    · by_cases h : c = sep <;> simp [pySplit, h, hf]

theorem pySplit_head (sep : Char) (l : List Char) :
    (pySplit sep l).headD [] = l.takeWhile (fun c => c ≠ sep) := by
  induction l with
  | nil => rfl
  | cons c rest ih =>
    by_cases h : c = sep
    · subst h
      simp [pySplit, List.takeWhile_cons]
    · rcases hf : pySplit sep rest with _ | ⟨f, fs⟩
      · exact absurd hf (pySplit_ne_nil sep rest)
      · have ihf : f = rest.takeWhile (fun c => c ≠ sep) := by
          simpa [hf] using ih
        simp [pySplit, h, hf, List.takeWhile_cons, ihf]

theorem pyReplace_del_eq_filter (old : Char) (l : List Char) :
    pyReplace old [] l = l.filter (fun c => c ≠ old) := by
  induction l with
  | nil => rfl
  | cons c rest ih =>
    by_cases h : c = old <;> simp [pyReplace, h, ih, List.filter_cons]

/-- Claim C8: the username property keeps only what precedes the first
commercial-at sign and then deletes every dot, so the identity used in file
names contains neither character; on john.doe at example.com it yields
johndoe. -/
theorem host_username_spec (uname : List Char) :
    host_username uname =
      (uname.takeWhile (fun c => c ≠ '@')).filter (fun c => c ≠ '.') ∧
    '@' ∉ host_username uname ∧
    '.' ∉ host_username uname ∧
    host_username "john.doe@example.com".toList = "johndoe".toList := by
  have he : host_username uname =
      (uname.takeWhile (fun c => c ≠ '@')).filter (fun c => c ≠ '.') := by
    unfold host_username
    rw [pySplit_head, pyReplace_del_eq_filter]
  refine ⟨he, ?_, ?_, by decide⟩
  · intro hmem
    rw [he] at hmem
    have h1 := List.mem_filter.mp hmem
    have h2 := List.mem_takeWhile_imp h1.1
    simp at h2
  · intro hmem
    rw [he] at hmem
    have h1 := List.mem_filter.mp hmem
    simp at h1

theorem fold_step_eq_min (l : List Nat) (c : Nat) :
    l.foldl (fun eff_level h => if h < eff_level then h else eff_level) c =
      l.foldl min c := by
  induction l generalizing c with
  | nil => rfl
  | cons x t ih =>
    have hx : (if x < c then x else c) = min c x := by
      rcases Nat.lt_or_ge x c with h | h
      · rw [if_pos h, min_eq_right (Nat.le_of_lt h)]
      · rw [if_neg (Nat.not_lt.mpr h), min_eq_left h]
    simp only [List.foldl]
    rw [hx, ih]

theorem foldl_min_comm (t : List Nat) (a b : Nat) :
    t.foldl min (min a b) = min a (t.foldl min b) := by
  induction t generalizing b with
  | nil => rfl
  | cons x t ih =>
    simp only [List.foldl]
    rw [min_assoc, ih]

/-- Claim C9 counterexample: a logger whose single handler has level 60 and
whose own level is 0: the code returns 50 (the fold starts from CRITICAL),
not the minimum handler level 60 that the claim states. -/
theorem getEffectiveLevel_counterexample :
    getEffectiveLevel [([60], 0)] = 50 ∧ minimumHandlerLevel [60] = 60 ∧
    getEffectiveLevel [([60], 0)] ≠ minimumHandlerLevel [60] := by decide

/-- Claim C9 (amended): getEffectiveLevel returns the minimum of
logging.CRITICAL and the handler levels of the nearest logger in the parent
chain with at least one handler; if no logger in the chain has handlers, the
first non-zero logger level, and NOTSET if there is none. -/
theorem getEffectiveLevel_amended (chain : List (List Nat × Nat)) :
    getEffectiveLevel chain = effectiveLevelAmendedSpec chain := by
  induction chain with
  | nil => rfl
  | cons head parents ih =>
    obtain ⟨handlers, level⟩ := head
    rcases handlers with _ | ⟨h, t⟩
    · simp [getEffectiveLevel, effectiveLevelAmendedSpec, ih]
    · simp only [getEffectiveLevel, effectiveLevelAmendedSpec, List.length_cons,
                 Nat.succ_pos, if_pos, Nat.zero_lt_succ, gt_iff_lt]
      rw [fold_step_eq_min]
      simp only [List.foldl, minimumHandlerLevel]
      rw [foldl_min_comm]

theorem mem_addHandler (h h' : Handler) (lg : PyLogger) :
    h' ∈ (addHandler h lg).handlers ↔ (h' ∈ lg.handlers ∨ h' = h) := by
  unfold addHandler
  by_cases hm : h ∈ lg.handlers
  · rw [if_pos hm]
    constructor
    · exact Or.inl
    · rintro (hh | rfl)
      · exact hh
      · exact hm
  · rw [if_neg hm]
    simp [List.mem_append]

/-- Claim C1 (code bug): get_logger stores the created logger under the
literal key string used at logger.py line 145 — dict(logger_name=logger)
builds a dict keyed by the word logger_name, not by the value of the
variable — so after get_logger("foo") the registry has no entry for "foo",
the entry under the literal key points at the "foo" logger, and a call
asking for the literal name returns the "foo" logger from the registry. -/
theorem get_logger_registry_key_bug :
    lookupAssoc "foo" ((get_logger initModuleState "foo").1).registry = none ∧
    lookupAssoc "logger_name" ((get_logger initModuleState "foo").1).registry =
      some "foo" ∧
    (get_logger ((get_logger initModuleState "foo").1) "logger_name").2 = "foo" := by
  decide

/-- Claim C2 counterexample: with FILE_LOGGING_STATUS at its import-time
value False, the logger created by get_logger("foo") carries only the
stdout handler — no file handler, so it does not write to the session log
file. -/
theorem get_logger_no_file_handler :
    lookupAssoc "foo" ((get_logger initModuleState "foo").1).manager =
      some ⟨[Handler.stdout], false⟩ ∧
    Handler.file ∉ ([Handler.stdout] : List Handler) := by decide

/-- Claim C2 (amended): a logger created by get_logger (registry and intern
misses) always receives the stdout stream handler, and receives the file
handler exactly when FILE_LOGGING_STATUS is true at creation time; the flag
is False at import. -/
theorem get_logger_handlers (st : ModuleState) (n : String)
    (hreg : lookupAssoc n st.registry = none)
    (hmgr : lookupAssoc n st.manager = none) :
    lookupAssoc n ((get_logger st n).1).manager =
      some ⟨if st.fileLoggingStatus then [Handler.stdout, Handler.file]
            else [Handler.stdout], false⟩ := by
  have h := get_logger_miss_lookup st n hreg
  rw [hmgr] at h
  rw [h]
  by_cases hb : st.fileLoggingStatus <;>
    simp [postCreateLogger, addHandler, setPropagate, freshLogger, hb]

/-- Witness for the amended C2: on the state with file logging switched on,
get_logger("foo") creates a logger with both handlers. -/
theorem get_logger_handlers_witness :
    lookupAssoc "foo"
        ((get_logger (set_file_logging true initModuleState) "foo").1).manager =
      some ⟨[Handler.stdout, Handler.file], false⟩ := by
  have h := get_logger_handlers (set_file_logging true initModuleState) "foo" rfl rfl
  simpa using h

/-- Claim C10 counterexample: logger "foo" is created while
FILE_LOGGING_STATUS is False (stdout handler only); after
set_file_logging True, a second get_logger("foo") call extends that
already-created logger with the file handler — the registry lookup misses,
so not only freshly created loggers are affected. -/
theorem set_file_logging_retrofit :
    lookupAssoc "foo" ((get_logger initModuleState "foo").1).manager =
      some ⟨[Handler.stdout], false⟩ ∧
    lookupAssoc "foo"
        ((get_logger (set_file_logging true ((get_logger initModuleState "foo").1))
            "foo").1).manager =
      some ⟨[Handler.stdout, Handler.file], false⟩ := by decide

/-- Claim C10 (amended): set_file_logging only flips the module-level
FILE_LOGGING_STATUS flag — the intern table and the registry, hence every
existing handler list, are untouched by the call itself; a later get_logger
call that misses the registry returns a logger holding the file handler
exactly when the new status is true or the logger already had it, so
previously created loggers fetched again also gain the handler. -/
theorem set_file_logging_spec (st : ModuleState) (b : Bool) (n : String) (lg0 : PyLogger)
    (hreg : lookupAssoc n st.registry = none)
    (hmgr : lookupAssoc n st.manager = some lg0) :
    (set_file_logging b st).manager = st.manager ∧
    (set_file_logging b st).registry = st.registry ∧
    (set_file_logging b st).fileLoggingStatus = b ∧
    ∀ lg, lookupAssoc n ((get_logger (set_file_logging b st) n).1).manager = some lg →
      (Handler.file ∈ lg.handlers ↔ (b = true ∨ Handler.file ∈ lg0.handlers)) := by
  refine ⟨rfl, rfl, rfl, ?_⟩
  intro lg hlg
  have h : lookupAssoc n ((get_logger (set_file_logging b st) n).1).manager =
      some (postCreateLogger b lg0) := by
    have h0 := get_logger_miss_lookup (set_file_logging b st) n hreg
    simpa [set_file_logging, hmgr] using h0
  rw [h] at hlg
  injection hlg with hlg2
  subst hlg2
  unfold postCreateLogger
  by_cases hb : b
  · subst hb
    simp [mem_addHandler, setPropagate]
  · simp only [Bool.not_eq_true] at hb
    subst hb
    simp [mem_addHandler, setPropagate]

/-- Witness for the amended C10, on the state where "foo" was created with
file logging off and the status is then switched to true. -/
theorem set_file_logging_spec_witness :
    (set_file_logging true ((get_logger initModuleState "foo").1)).manager =
      ((get_logger initModuleState "foo").1).manager ∧
    (Handler.file ∈ (⟨[Handler.stdout, Handler.file], false⟩ : PyLogger).handlers ↔
      (true = true ∨ Handler.file ∈ (⟨[Handler.stdout], false⟩ : PyLogger).handlers)) := by
  have h := set_file_logging_spec ((get_logger initModuleState "foo").1) true "foo"
    ⟨[Handler.stdout], false⟩ (by decide) (by decide)
  exact ⟨h.1, h.2.2.2 ⟨[Handler.stdout, Handler.file], false⟩ (by decide)⟩
